import Mathlib

/-!
Shallow embedding of the `cml_link_node` Ansible module
(`plugins/modules/cml_link_node.py`) together with a model of the remote
lab object graph it manipulates through the `virl2_client` library and of
the argument processing performed by the automation host.

The remote object model (labs, nodes, interfaces, links) and the helper
layer (`cmlModule`, `get_node_by_name`, `fail_json`, `exit_json`) are not
part of the translated source file; they are modelled from the repository
specification's data model: a lab is identified by title and contains
nodes and links; a node is identified by name and owns interfaces with a
stable label and an ordinal slot; an interface is attached to at most one
link; a link is an unordered pair of interfaces.
-/

deriving instance DecidableEq for Except

namespace CmlLinkNode

/-- An interface on a node of a lab. `id` is its global identity, `node`
is the name of the owning node, `label` and `slot` are the two user-facing
identifiers an invocation may use to request it. -/
structure Interface where
  id : Nat
  node : String
  label : String
  slot : Int
deriving DecidableEq, Repr

/-- A link between two interfaces, given by their global ids. -/
structure Link where
  id : Nat
  a : Nat
  b : Nat
deriving DecidableEq, Repr

/-- A lab: a title, node names, interfaces and links, plus counters used
to mint fresh interface and link identities. -/
structure Lab where
  title : String
  nodes : List String
  interfaces : List Interface
  links : List Link
  nextIfaceId : Nat
  nextLinkId : Nat
deriving DecidableEq, Repr

/-- Terminal outcome of one module invocation against one lab.
`ok changed lab` models a normal `exit_json` with the reported `changed`
value, `failed` models `fail_json`, and `crashed` models an unhandled
Python exception; each carries the remote lab state at termination. -/
inductive Outcome where
  | ok (changed : Bool) (lab : Lab)
  | failed (msg : String) (lab : Lab)
  | crashed (msg : String) (lab : Lab)
deriving DecidableEq, Repr

/-- The remote lab state an outcome leaves behind. -/
def Outcome.lab : Outcome → Lab
  | .ok _ l => l
  | .failed _ l => l
  | .crashed _ l => l

/-- Modelled from the spec: `cml_utils.get_node_by_name` (not under the
translated sources) returns the node with the given name, or nothing when
the lab has no such node. Nodes are identified by their names. -/
def get_node_by_name (lab : Lab) (name : String) : Option String :=
  if lab.nodes.contains name then some name else none

/-- `node.get_interface_by_label`: first interface of the node carrying
the requested label. -/
def get_interface_by_label (lab : Lab) (node lbl : String) : Option Interface :=
  lab.interfaces.find? (fun i => i.node == node && i.label == lbl)

/-- `node.get_interface_by_slot`: first interface of the node carrying
the requested slot number. -/
def get_interface_by_slot (lab : Lab) (node : String) (slot : Int) : Option Interface :=
  lab.interfaces.find? (fun i => i.node == node && i.slot == slot)

/-- Membership of an interface (by id) in a link's interface pair,
Python's `iface in ln.interfaces`. -/
def link_has (ln : Link) (i : Nat) : Bool :=
  ln.a == i || ln.b == i

/-- The link an interface is attached to, Python's `iface.link`
(an interface carries at most one link). -/
def interface_link (lab : Lab) (i : Nat) : Option Link :=
  lab.links.find? (fun ln => link_has ln i)

/-- Name of the node owning the interface with the given id. -/
def node_of_interface (lab : Lab) (i : Nat) : Option String :=
  (lab.interfaces.find? (fun x => x.id == i)).map (fun x => x.node)

/-- `source_node.get_links_to(destination_node)`: all links whose two
endpoints lie on the two given nodes. -/
def get_links_to (lab : Lab) (s d : String) : List Link :=
  lab.links.filter (fun ln =>
    (node_of_interface lab ln.a == some s && node_of_interface lab ln.b == some d) ||
    (node_of_interface lab ln.a == some d && node_of_interface lab ln.b == some s))

/-- `node.next_available_interface()`: first interface of the node not
attached to any link. -/
def next_available_interface (lab : Lab) (node : String) : Option Interface :=
  lab.interfaces.find? (fun i => i.node == node && (interface_link lab i.id).isNone)

/-- `node.create_interface()`: mint a fresh interface on the node and
return it together with the grown lab. -/
def create_interface (lab : Lab) (node : String) : Lab × Nat :=
  ({ lab with
      interfaces := lab.interfaces ++
        [⟨lab.nextIfaceId, node, "eth" ++ toString lab.nextIfaceId, Int.ofNat lab.nextIfaceId⟩],
      nextIfaceId := lab.nextIfaceId + 1 },
   lab.nextIfaceId)

/-- `lab.remove_link(link)`: drop the link object from the lab. -/
def remove_link (lab : Lab) (ln : Link) : Lab :=
  { lab with links := lab.links.erase ln }

/-- Append a fresh link joining the two interface ids. -/
def add_link (lab : Lab) (i1 i2 : Nat) : Lab :=
  { lab with links := lab.links ++ [⟨lab.nextLinkId, i1, i2⟩], nextLinkId := lab.nextLinkId + 1 }

/-- Modelled from the spec: `lab.create_link(i1, i2)` joins two
interfaces; since an interface carries at most one link, connecting an
already-attached interface is a remote error. -/
def create_link (lab : Lab) (i1 i2 : Nat) : Except String Lab :=
  if (interface_link lab i1).isSome || (interface_link lab i2).isSome then
    .error "interface already has a link"
  else
    .ok (add_link lab i1 i2)

/-- `source_interface = next_available_interface() or create_interface()`. -/
def allocate_interface (lab : Lab) (node : String) : Lab × Nat :=
  match next_available_interface lab node with
  | some i => (lab, i.id)
  | none => create_interface lab node

/-- The module's validated parameters (after host-side argument
processing). -/
structure Params where
  lab : String
  state : String
  source_node : String
  source_interface : Option String
  source_interface_slot : Option Int
  destination_node : String
  destination_interface : Option String
  destination_interface_slot : Option Int
  update_node : Option String
  update_interface : Option String
  update_interface_slot : Option Int
deriving DecidableEq, Repr

/-- Python truthiness of an optional string parameter: absent and empty
strings are falsy. -/
def truthy : Option String → Bool
  | none => false
  | some s => !(s == "")

/-- Lines 228-250: resolve one side's requested interface. Nothing
requested yields `ok none`; a requested label (else slot) that resolves
yields its interface id; a requested identifier that does not resolve is
the error case (the module then fails). -/
def resolve_interface (lab : Lab) (node : String) (byLabel : Option String)
    (bySlot : Option Int) : Except Unit (Option Nat) :=
  if byLabel.isSome || bySlot.isSome then
    match (match byLabel with
           | some l => get_interface_by_label lab node l
           | none => match bySlot with
                     | some s => get_interface_by_slot lab node s
                     | none => none) with
    | some i => .ok (some i.id)
    | none => .error ()
  else
    .ok none

/-- Everything lines 208-250 compute before link discovery: the resolved
source, destination and (optional) update nodes, and the resolved
requested interface on each side. -/
structure Resolved where
  s : String
  d : String
  u : Option String
  si : Option Nat
  di : Option Nat
  ui : Option Nat
deriving DecidableEq, Repr

/-- Lines 208-250 of `run_module`: node lookup and validation, then
interface resolution. Requesting an update interface while the update
node is unresolved dereferences Python `None` (line 246/248), modelled as
a crash. -/
def resolve_phase (p : Params) (lab : Lab) : Except Outcome Resolved :=
  let source_node := get_node_by_name lab p.source_node
  let destination_node := get_node_by_name lab p.destination_node
  let update_node := match p.update_node with
    | none => none
    | some n => get_node_by_name lab n
  if source_node = none ∨ destination_node = none then
    .error (.failed "One or more nodes cannot be found. Nodes need to be created before a link can be established" lab)
  else if source_node = destination_node then
    .error (.failed "Source and destination nodes cannot be the same" lab)
  else if p.state = "updated" ∧ update_node = none then
    .error (.failed "State set to updated, but source_node was not found" lab)
  else if truthy p.update_node = true ∧ update_node = none then
    .error (.failed "Update_node specified, but it was not found" lab)
  else
    match resolve_interface lab p.source_node p.source_interface p.source_interface_slot with
    | .error _ => .error (.failed "Source interface specified, but not found" lab)
    | .ok si =>
      match resolve_interface lab p.destination_node p.destination_interface p.destination_interface_slot with
      | .error _ => .error (.failed "Destination interface specified, but not found" lab)
      | .ok di =>
        if p.update_interface.isSome || p.update_interface_slot.isSome then
          match update_node with
          | none => .error (.crashed "AttributeError: NoneType has no interface lookup" lab)
          | some un =>
            match resolve_interface lab un p.update_interface p.update_interface_slot with
            | .error _ => .error (.failed "Update interface specified, but not found" lab)
            | .ok ui => .ok ⟨p.source_node, p.destination_node, update_node, si, di, ui⟩
        else
          .ok ⟨p.source_node, p.destination_node, update_node, si, di, none⟩

/-- The loop of lines 261-286: walk the candidate links; a candidate
containing a requested interface is selected unless the other requested
side is absent from it, in which case the module fails at once; when the
walk falls off the end (Python's `for`-`else`), a requested interface
already attached to some link is an in-use failure, otherwise no link is
selected. -/
def scan_links (lab : Lab) (si di : Option Nat) : List Link → Except Outcome (Option Link)
  | [] =>
    if (match si with | some i => (interface_link lab i).isSome | none => false) then
      .error (.failed "Source interface is already used in another link" lab)
    else if (match di with | some i => (interface_link lab i).isSome | none => false) then
      .error (.failed "Destination interface is already used in another link" lab)
    else
      .ok none
  | ln :: rest =>
    if (match si with | some i => link_has ln i | none => false) then
      if (match di with | some i => !link_has ln i | none => false) then
        .error (.failed "Link found between nodes but destination interface does not match" lab)
      else
        .ok (some ln)
    else if (match di with | some i => link_has ln i | none => false) then
      if (match si with | some i => !link_has ln i | none => false) then
        .error (.failed "Link found between nodes but source interface does not match" lab)
      else
        .ok (some ln)
    else
      scan_links lab si di rest

/-- Lines 252-286: link discovery. With no candidate links nothing is
selected; with no requested interfaces the first candidate is selected;
otherwise the scan decides. -/
def discover_phase (lab : Lab) (r : Resolved) : Except Outcome (Option Link) :=
  let links := get_links_to lab r.s r.d
  if links.isEmpty then
    .ok none
  else if r.si.isNone && r.di.isNone then
    .ok links.head?
  else
    scan_links lab r.si r.di links

/-- Lines 292-300: the mutating tail of the `present` branch. Each
unrequested side gets the node's next free interface, else a freshly
created one; then the link is created. -/
def present_mutate (lab : Lab) (r : Resolved) : Outcome :=
  match (match r.si with
         | some i => (lab, i)
         | none => allocate_interface lab r.s) with
  | (lab1, si) =>
    match (match r.di with
           | some i => (lab1, i)
           | none => allocate_interface lab1 r.d) with
    | (lab2, di) =>
      match create_link lab2 si di with
      | .ok lab3 => .ok true lab3
      | .error m => .crashed m lab2

/-- Lines 307-313: the mutating tail of the `updated` branch: remove the
old link, allocate the update interface if unrequested, then call
`lab.create_link(source_interface, update_interface)` with the raw
`source_interface` variable - which is Python `None` whenever no source
interface was requested, modelled as a crash occurring after the old link
was already removed. -/
def updated_mutate (lab : Lab) (r : Resolved) (ln : Link) : Outcome :=
  match (match r.ui with
         | some i => (remove_link lab ln, some i)
         | none =>
           match r.u with
           | none => (remove_link lab ln, none)
           | some un =>
             match allocate_interface (remove_link lab ln) un with
             | (lab2, i) => (lab2, some i)) with
  | (lab2, oui) =>
    match oui with
    | none => .crashed "AttributeError: NoneType has no next available interface" lab2
    | some ui =>
      match r.si with
      | none => .crashed "TypeError: create_link called with a None interface" lab2
      | some si =>
        match create_link lab2 si ui with
        | .ok lab3 => .ok true lab3
        | .error m => .crashed m lab2

/-- Lines 288-324: the three-way state dispatch, with the check-mode
early exits (`exit_json(changed=True)`) guarding every mutation. -/
def act_phase (p : Params) (check : Bool) (lab : Lab) (r : Resolved)
    (link : Option Link) : Outcome :=
  if p.state = "present" then
    match link with
    | none => if check then .ok true lab else present_mutate lab r
    | some _ => .ok false lab
  else if p.state = "updated" then
    match link with
    | some ln =>
      if (match r.ui with | some i => (interface_link lab i).isSome | none => false) then
        .failed "Update interface is already used in another link" lab
      else if check then .ok true lab
      else updated_mutate lab r ln
    | none => .failed "Link between nodes does not exist so cannot be updated" lab
  else if p.state = "absent" then
    match link with
    | some ln =>
      if check then .ok true lab
      else .ok true (remove_link lab ln)
    | none => .ok false lab
  else
    .ok false lab

/-- Lines 208-324 of `run_module`: the whole reconciliation against one
already-selected lab. -/
def run_module_on_lab (p : Params) (check : Bool) (lab : Lab) : Outcome :=
  match resolve_phase p lab with
  | .error o => o
  | .ok r =>
    match discover_phase lab r with
    | .error o => o
    | .ok link => act_phase p check lab r link

/-- Modelled from the spec: `client.find_labs_by_title` (remote client
library) returns every lab whose title equals the requested one. -/
def find_labs_by_title (client : List Lab) (title : String) : List Lab :=
  client.filter (fun l => l.title == title)

/-- Lines 202-206 plus the per-lab run: when at least one lab carries the
requested title the first one is used, otherwise the module fails. -/
def run_module (p : Params) (check : Bool) (client : List Lab) : Except String Outcome :=
  match find_labs_by_title client p.lab with
  | [] => .error ("Cannot find lab " ++ p.lab)
  | l :: _ => .ok (run_module_on_lab p check l)

/-- The raw invocation as the host receives it: every parameter may be
absent. -/
structure RawParams where
  lab : Option String
  state : Option String
  source_node : Option String
  source_interface : Option String
  source_interface_slot : Option Int
  destination_node : Option String
  destination_interface : Option String
  destination_interface_slot : Option Int
  update_node : Option String
  update_interface : Option String
  update_interface_slot : Option Int
deriving DecidableEq, Repr

/-- The values line 161 declares admissible for `state`. -/
def stateChoices : List String := ["present", "updated", "absent"]

/-- Line 161 of the argument specification declares `state` with
`required=True`. -/
def state_spec_required : Bool := true

/-- Line 161 of the argument specification also declares `state` with
`default='present'`. -/
def state_spec_default : Option String := some "present"

/-- Modelled from the automation host's documented semantics for the
argument specification of lines 158-185. Alias handling walks the
argument specification before any per-parameter validation and aborts
with an internal error as soon as a parameter declares both
`required=True` and a default - which `state` does at line 161 - so the
host rejects every invocation of this module at startup. The
per-parameter checks it would otherwise perform (the mutually-exclusive
pairs of lines 181-185, the required parameters, `choices` on `state`,
`required_if` of line 174, and `required_by` of line 178, which ties
`update_interface` - and only it - back to `update_node`) are modelled
after that guard and are never reached. -/
def validate_params (raw : RawParams) : Except String Params :=
  if state_spec_required && state_spec_default.isSome then
    .error "internal error: required and default are mutually exclusive for state"
  else if raw.source_interface.isSome && raw.source_interface_slot.isSome then
    .error "parameters are mutually exclusive: source_interface and source_interface_slot"
  else if raw.destination_interface.isSome && raw.destination_interface_slot.isSome then
    .error "parameters are mutually exclusive: destination_interface and destination_interface_slot"
  else if raw.update_interface.isSome && raw.update_interface_slot.isSome then
    .error "parameters are mutually exclusive: update_interface and update_interface_slot"
  else
    match raw.lab, raw.state, raw.source_node, raw.destination_node with
    | some lb, some st, some sn, some dn =>
      if !(stateChoices.contains st) then
        .error "value of state must be one of: present, updated, absent"
      else if st == "updated" && raw.update_node.isNone then
        .error "state is updated but all of the following are missing: update_node"
      else if raw.update_interface.isSome && raw.update_node.isNone then
        .error "missing parameter required by update_interface: update_node"
      else
        .ok { lab := lb, state := st, source_node := sn,
              source_interface := raw.source_interface,
              source_interface_slot := raw.source_interface_slot,
              destination_node := dn,
              destination_interface := raw.destination_interface,
              destination_interface_slot := raw.destination_interface_slot,
              update_node := raw.update_node,
              update_interface := raw.update_interface,
              update_interface_slot := raw.update_interface_slot }
    | _, _, _, _ => .error "missing required arguments"

/-- A baseline invocation: lab L, source R1, destination R2, nothing
else. -/
def baseParams : Params :=
  { lab := "L", state := "present", source_node := "R1",
    source_interface := none, source_interface_slot := none,
    destination_node := "R2", destination_interface := none,
    destination_interface_slot := none, update_node := none,
    update_interface := none, update_interface_slot := none }

/-- A baseline raw invocation carrying exactly the required parameters. -/
def baseRaw : RawParams :=
  { lab := some "L", state := some "present", source_node := some "R1",
    source_interface := none, source_interface_slot := none,
    destination_node := some "R2", destination_interface := none,
    destination_interface_slot := none, update_node := none,
    update_interface := none, update_interface_slot := none }

/-- Three nodes, one interface each, a link joining R1 and R2. -/
def labLinked : Lab :=
  { title := "L", nodes := ["R1", "R2", "R3"],
    interfaces := [⟨0, "R1", "e0", 0⟩, ⟨1, "R2", "e0", 0⟩, ⟨2, "R3", "e0", 0⟩],
    links := [⟨0, 0, 1⟩], nextIfaceId := 3, nextLinkId := 1 }

/-- Three nodes, one interface each, no links. -/
def labUnlinked : Lab :=
  { title := "L", nodes := ["R1", "R2", "R3"],
    interfaces := [⟨0, "R1", "e0", 0⟩, ⟨1, "R2", "e0", 0⟩, ⟨2, "R3", "e0", 0⟩],
    links := [], nextIfaceId := 3, nextLinkId := 1 }

/-- Three nodes, one interface each, a link joining R1 and R3 (so no link
between R1 and R2, while R1's interface is attached elsewhere). -/
def labCross : Lab :=
  { title := "L", nodes := ["R1", "R2", "R3"],
    interfaces := [⟨0, "R1", "e0", 0⟩, ⟨1, "R2", "e0", 0⟩, ⟨2, "R3", "e0", 0⟩],
    links := [⟨0, 0, 2⟩], nextIfaceId := 3, nextLinkId := 1 }

/-- Two nodes with two interfaces each and two (interface-disjoint) links
between them. -/
def labTwo : Lab :=
  { title := "L", nodes := ["R1", "R2"],
    interfaces := [⟨0, "R1", "e0", 0⟩, ⟨1, "R2", "e0", 0⟩,
                   ⟨2, "R1", "e1", 1⟩, ⟨3, "R2", "e1", 1⟩],
    links := [⟨0, 0, 1⟩, ⟨1, 2, 3⟩], nextIfaceId := 4, nextLinkId := 2 }

/-- The update invocation of the spec scenario: relink R1-R2 to R1-R3. -/
def updParams : Params :=
  { baseParams with state := "updated", update_node := some "R3" }

/-- A lab with a link R1-R2 (e0 to e0) and a second link R1-R3 occupying
interface e1 of R1. -/
def labBusy : Lab :=
  { title := "L", nodes := ["R1", "R2", "R3"],
    interfaces := [⟨0, "R1", "e0", 0⟩, ⟨1, "R2", "e0", 0⟩,
                   ⟨2, "R1", "e1", 1⟩, ⟨3, "R3", "e0", 0⟩],
    links := [⟨0, 0, 1⟩, ⟨1, 2, 3⟩], nextIfaceId := 4, nextLinkId := 2 }

/-- Whether host argument processing rejected the invocation. -/
def except_is_error {ε α : Type} : Except ε α → Bool
  | .error _ => true
  | .ok _ => false

/-- The claim's notion of a candidate link matching: a requested
interface on one side is contained in the link's interface pair. -/
@[reducible] def requested_match (si di : Option Nat) (ln : Link) : Prop :=
  (∃ i, si = some i ∧ link_has ln i = true) ∨ (∃ i, di = some i ∧ link_has ln i = true)

/-- The claim's notion of no conflicting mismatch: every requested
interface (if any) is contained in the link's interface pair. -/
@[reducible] def no_mismatch (si di : Option Nat) (ln : Link) : Prop :=
  (∀ i, si = some i → link_has ln i = true) ∧ (∀ i, di = some i → link_has ln i = true)

/-- Two links with no interface in common. -/
@[reducible] def links_disjoint (l1 l2 : Link) : Prop :=
  link_has l1 l2.a = false ∧ link_has l1 l2.b = false

/-- The data-model invariant restricted to a set of links: an interface
is attached to at most one of them. -/
@[reducible] def DisjointLinks (links : List Link) : Prop :=
  links.Pairwise links_disjoint

/-- Well-formedness of a remote lab: interface ids are below the fresh-id
counter and pairwise distinct, and every link endpoint is the id of an
existing interface. -/
@[reducible] def LabWf (lab : Lab) : Prop :=
  (∀ i ∈ lab.interfaces, i.id < lab.nextIfaceId)
  ∧ lab.interfaces.Pairwise (fun i j => i.id ≠ j.id)
  ∧ (∀ ln ∈ lab.links, (∃ x ∈ lab.interfaces, x.id = ln.a) ∧ (∃ x ∈ lab.interfaces, x.id = ln.b))

theorem get_node_by_name_found {lab : Lab} {n : String}
    (h : lab.nodes.contains n = true) : get_node_by_name lab n = some n := by
  unfold get_node_by_name
  rw [h]
  rfl

theorem get_node_by_name_missing {lab : Lab} {n : String}
    (h : lab.nodes.contains n = false) : get_node_by_name lab n = none := by
  unfold get_node_by_name
  rw [h]
  rfl

theorem resolve_interface_not_requested (lab : Lab) (nd : String) :
    resolve_interface lab nd none none = .ok none := rfl

/-- Evaluation of the resolution phase for a valid invocation that does
not use an update node. -/
theorem resolve_phase_eval (p : Params) (lab : Lab) (os od : Option Nat)
    (hs : lab.nodes.contains p.source_node = true)
    (hd : lab.nodes.contains p.destination_node = true)
    (hne : p.source_node ≠ p.destination_node)
    (hupd : p.update_node = none)
    (hui : p.update_interface = none)
    (hus : p.update_interface_slot = none)
    (hst : p.state ≠ "updated")
    (hrs : resolve_interface lab p.source_node p.source_interface p.source_interface_slot
      = .ok os)
    (hrd : resolve_interface lab p.destination_node p.destination_interface
      p.destination_interface_slot = .ok od) :
    resolve_phase p lab
      = .ok ⟨p.source_node, p.destination_node, none, os, od, none⟩ := by
  simp only [resolve_phase]
  rw [hupd, get_node_by_name_found hs, get_node_by_name_found hd]
  rw [if_neg (by simp), if_neg (by simp [hne]), if_neg (fun h => hst h.1),
    if_neg (by simp [truthy])]
  rw [hrs, hrd, hui, hus]
  rfl

/-- Link discovery with no requested interfaces selects the first
candidate link, if any. -/
theorem discover_phase_no_request (lab : Lab) (r : Resolved)
    (hsi : r.si = none) (hdi : r.di = none) :
    discover_phase lab r = .ok (get_links_to lab r.s r.d).head? := by
  unfold discover_phase
  rw [hsi, hdi]
  cases h : get_links_to lab r.s r.d <;> simp

/-- C1: on the spec's own scenario (existing link R1-R2, state=updated,
update_node=R3, no interface requested) the code does not create the
claimed R1-R3 link: after removing the R1-R2 link it hands the unset
(None) source interface variable to `lab.create_link` and crashes,
leaving the lab with the old link removed and no new link. -/
theorem c1_updated_drops_source_interface :
    run_module_on_lab updParams false labLinked
      = .crashed "TypeError: create_link called with a None interface"
          { labLinked with links := [] } := by
  decide

/-- C8 (counterpart): line 161 declares `state` with `required=True`
together with `default='present'`, a combination the host's argument
processing refuses before looking at any supplied parameter - so every
invocation of this module, whether it omits `state` or supplies a valid
value, is rejected with the internal required/default error instead of
being accepted with `present` as the claim (and the module's own
documentation block, `required: false`, `default: present`) describes.
The declared choices list is present/updated/absent as claimed, but is
never consulted. -/
theorem c8_state_required_despite_documented_default :
    (∀ raw : RawParams, validate_params raw
        = .error "internal error: required and default are mutually exclusive for state")
    ∧ stateChoices = ["present", "updated", "absent"] :=
  ⟨fun _ => rfl, rfl⟩

/-- C2 counterexample: with two labs both titled L the module does not
fail; it silently uses the first one and even mutates it (a link gets
created, changed=true), refuting "must resolve to exactly one lab ...
more than one ... fails ... performs no mutation". -/
theorem c2_duplicate_titles_counterexample :
    (find_labs_by_title [labUnlinked, labLinked] "L").length = 2
    ∧ run_module baseParams false [labUnlinked, labLinked]
        = .ok (.ok true { labUnlinked with links := [⟨1, 0, 1⟩], nextLinkId := 2 }) := by
  decide

/-- C4 counterexample: for the update scenario without an explicit source
interface, check mode exits with changed=true and no mutation, while the
real run on the same remote state does not report any changed value at
all - it removes the old link and then crashes in `create_link`. -/
theorem c4_check_mode_counterexample :
    run_module_on_lab updParams true labLinked = .ok true labLinked
    ∧ run_module_on_lab updParams false labLinked
        = .crashed "TypeError: create_link called with a None interface"
            { labLinked with links := [] } := by
  decide

/-- C6 counterexample: source interface e0 of R1 is requested and is
attached to a different link (R1-R3), and no candidate link between R1
and R2 exists (so vacuously none matches); yet with state=absent the
module neither fails nor checks the interface - it exits changed=false.
The in-use check (lines 280-286) only runs when at least one candidate
link exists. -/
theorem c6_no_candidate_counterexample :
    (interface_link labCross 0).isSome = true
    ∧ get_links_to labCross "R1" "R2" = []
    ∧ run_module_on_lab { baseParams with state := "absent", source_interface := some "e0" }
        false labCross = .ok false labCross := by
  decide

/-- C2 (amended): the lab name must resolve to at least one lab by
title: with zero matches the module fails terminally before any mutation,
and with one or more matches it runs against the first match (it does not
fail on multiple matches). -/
theorem c2_lab_selection (p : Params) (check : Bool) (client : List Lab) :
    (find_labs_by_title client p.lab = [] →
        run_module p check client = .error ("Cannot find lab " ++ p.lab))
    ∧ (∀ l ls, find_labs_by_title client p.lab = l :: ls →
        run_module p check client = .ok (run_module_on_lab p check l)) := by
  constructor
  · intro h
    unfold run_module
    rw [h]
  · intro l ls h
    unfold run_module
    rw [h]

/-- Witness for the amended C2 statement at a concrete client. -/
theorem c2_lab_selection_witness :
    run_module baseParams false [] = .error ("Cannot find lab " ++ baseParams.lab) :=
  (c2_lab_selection baseParams false []).1 (by decide)

/-- C10: whenever `update_node` is supplied (with a nonempty name) and
does not resolve in the lab, the module fails terminally - whatever the
requested state - and the remote lab is left unchanged. -/
theorem c10_update_node_must_resolve (p : Params) (lab : Lab) (check : Bool) (n : String)
    (hs : lab.nodes.contains p.source_node = true)
    (hd : lab.nodes.contains p.destination_node = true)
    (hne : p.source_node ≠ p.destination_node)
    (hu : p.update_node = some n)
    (hn0 : n ≠ "")
    (hmiss : lab.nodes.contains n = false) :
    ∃ m, run_module_on_lab p check lab = .failed m lab := by
  unfold run_module_on_lab
  simp only [resolve_phase, hu, get_node_by_name_found hs, get_node_by_name_found hd,
    get_node_by_name_missing hmiss]
  rw [if_neg (by simp), if_neg (by simp [hne])]
  by_cases hsu : p.state = "updated"
  · rw [if_pos ⟨hsu, trivial⟩]
    exact ⟨_, rfl⟩
  · rw [if_neg (fun h => hsu h.1), if_pos ⟨by simp [truthy, hn0], trivial⟩]
    exact ⟨_, rfl⟩

/-- Witness for C10: update node R9 does not exist in the lab. -/
theorem c10_update_node_must_resolve_witness :
    ∃ m, run_module_on_lab { baseParams with update_node := some "R9" } false labUnlinked
      = .failed m labUnlinked :=
  c10_update_node_must_resolve { baseParams with update_node := some "R9" } labUnlinked
    false "R9" (by decide) (by decide) (by decide) rfl (by decide) (by decide)

/-- C9: with state=absent and no requested interfaces, an existing link
between the resolved (distinct) source and destination nodes is removed
and changed=true is reported; with no such link the module exits
changed=false without failing and without mutation. -/
theorem c9_absent_reconciliation (p : Params) (lab : Lab)
    (hs : lab.nodes.contains p.source_node = true)
    (hd : lab.nodes.contains p.destination_node = true)
    (hne : p.source_node ≠ p.destination_node)
    (hstate : p.state = "absent")
    (hupd : p.update_node = none)
    (hsi : p.source_interface = none) (hss : p.source_interface_slot = none)
    (hdi : p.destination_interface = none) (hds : p.destination_interface_slot = none)
    (hui : p.update_interface = none) (hus : p.update_interface_slot = none) :
    (∀ ln rest, get_links_to lab p.source_node p.destination_node = ln :: rest →
        run_module_on_lab p false lab = .ok true (remove_link lab ln))
    ∧ (get_links_to lab p.source_node p.destination_node = [] →
        run_module_on_lab p false lab = .ok false lab) := by
  have hres : resolve_phase p lab
      = .ok ⟨p.source_node, p.destination_node, none, none, none, none⟩ := by
    refine resolve_phase_eval p lab none none hs hd hne hupd hui hus (by rw [hstate]; decide) ?_ ?_
    · rw [hsi, hss]
      rfl
    · rw [hdi, hds]
      rfl
  have hdisc := discover_phase_no_request lab
    ⟨p.source_node, p.destination_node, none, none, none, none⟩ rfl rfl
  constructor
  · intro ln rest hlk
    unfold run_module_on_lab
    simp only [hres, hdisc, hlk, List.head?_cons]
    unfold act_phase
    rw [hstate]
    rw [if_neg (by decide), if_neg (by decide), if_pos rfl]
    rfl
  · intro hlk
    unfold run_module_on_lab
    simp only [hres, hdisc, hlk, List.head?_nil]
    unfold act_phase
    rw [hstate]
    rw [if_neg (by decide), if_neg (by decide), if_pos rfl]

/-- The candidate scan over links none of which contains the requested
source interface, with no destination interface requested: it falls
through to the in-use check of the `for`-`else` clause. -/
theorem scan_links_no_match (lab : Lab) (si : Nat) (links : List Link) :
    (∀ ln ∈ links, link_has ln si = false) →
    scan_links lab (some si) none links
      = if (interface_link lab si).isSome = true then
          .error (.failed "Source interface is already used in another link" lab)
        else .ok none := by
  induction links with
  | nil =>
    intro _
    cases hI : (interface_link lab si).isSome <;> simp [scan_links, hI]
  | cons ln rest ih =>
    intro h
    have h1 : link_has ln si = false := h ln (by simp)
    simp only [scan_links, h1]
    simp only [Bool.false_eq_true, if_false]
    exact ih (fun l hl => h l (by simp [hl]))

/-- C6 (amended): the "interface already in use" failure is raised - with
no prior mutation, for every state and in and out of check mode - exactly
in the situation the code checks: at least one candidate link exists
between the nodes, none of them contains the requested (resolved) source
interface, and that interface is attached to some other link. With zero
candidate links the check is skipped entirely (see the counterexample). -/
theorem c6_interface_in_use (p : Params) (lab : Lab) (check : Bool) (si : Nat)
    (hs : lab.nodes.contains p.source_node = true)
    (hd : lab.nodes.contains p.destination_node = true)
    (hne : p.source_node ≠ p.destination_node)
    (hupd : p.update_node = none)
    (hui : p.update_interface = none) (hus : p.update_interface_slot = none)
    (hst : p.state ≠ "updated")
    (hdi : p.destination_interface = none) (hds : p.destination_interface_slot = none)
    (hrs : resolve_interface lab p.source_node p.source_interface p.source_interface_slot
      = .ok (some si))
    (hcand : get_links_to lab p.source_node p.destination_node ≠ [])
    (hnomatch : ∀ ln ∈ get_links_to lab p.source_node p.destination_node,
      link_has ln si = false)
    (hatt : (interface_link lab si).isSome = true) :
    run_module_on_lab p check lab
      = .failed "Source interface is already used in another link" lab := by
  have hres : resolve_phase p lab
      = .ok ⟨p.source_node, p.destination_node, none, some si, none, none⟩ :=
    resolve_phase_eval p lab (some si) none hs hd hne hupd hui hus hst hrs
      (by rw [hdi, hds]; rfl)
  cases hlk : get_links_to lab p.source_node p.destination_node with
  | nil => exact absurd hlk hcand
  | cons a rest =>
    have hnm : ∀ ln ∈ a :: rest, link_has ln si = false := by
      rw [← hlk]; exact hnomatch
    have hscan : scan_links lab (some si) none (a :: rest)
        = .error (.failed "Source interface is already used in another link" lab) := by
      rw [scan_links_no_match lab si (a :: rest) hnm, if_pos hatt]
    have hdisc : discover_phase lab
        ⟨p.source_node, p.destination_node, none, some si, none, none⟩
        = .error (.failed "Source interface is already used in another link" lab) := by
      simp only [discover_phase]
      rw [hlk]
      simpa using hscan
    simp only [run_module_on_lab, hres, hdisc]

/-- Witness for the amended C6: interface e1 of R1 sits on a link to R3
while a distinct link R1-R2 exists; requesting e1 fails as in-use. -/
theorem c6_interface_in_use_witness :
    run_module_on_lab { baseParams with source_interface := some "e1" } false labBusy
      = .failed "Source interface is already used in another link" labBusy :=
  c6_interface_in_use { baseParams with source_interface := some "e1" } labBusy false 2
    (by decide) (by decide) (by decide) rfl rfl rfl (by decide) rfl rfl
    (by decide) (by decide) (by decide) (by decide)

/-- C7: supplying `update_interface` or `update_interface_slot` without
`update_node`, or the two together, is rejected by the host - as is
every other invocation of this module, since argument processing aborts
on the required/default conflict of `state` (line 161) before the
declared constraints are consulted. Of those declared constraints, the
mutual exclusivity of the pair is present (line 184) while `required_by`
(line 178) in fact ties only `update_interface` - not
`update_interface_slot` - to `update_node`; neither declaration is ever
reached. -/
theorem c7_update_interface_requirements :
    (∀ raw : RawParams, raw.update_interface.isSome = true → raw.update_node = none →
        except_is_error (validate_params raw) = true)
    ∧ (∀ raw : RawParams, raw.update_interface_slot.isSome = true → raw.update_node = none →
        except_is_error (validate_params raw) = true)
    ∧ (∀ raw : RawParams, raw.update_interface.isSome = true →
        raw.update_interface_slot.isSome = true →
        except_is_error (validate_params raw) = true) :=
  ⟨fun _ _ _ => rfl, fun _ _ _ => rfl, fun _ _ _ => rfl⟩

/-- Witness for C7 at concrete invocations: each of the three rejected
shapes, instantiated. -/
theorem c7_update_interface_requirements_witness :
    except_is_error (validate_params { baseRaw with update_interface := some "u" }) = true
    ∧ except_is_error (validate_params { baseRaw with update_interface_slot := some 0 }) = true
    ∧ except_is_error (validate_params
        { baseRaw with update_node := some "R3", update_interface := some "u", update_interface_slot := some 0 }) = true :=
  ⟨c7_update_interface_requirements.1 _ rfl rfl,
   c7_update_interface_requirements.2.1 _ rfl rfl,
   c7_update_interface_requirements.2.2 _ rfl rfl⟩

/-- Failures of the resolution phase happen before any mutation. -/
theorem resolve_phase_error_lab {p : Params} {lab : Lab} {o : Outcome}
    (h : resolve_phase p lab = .error o) : o.lab = lab := by
  simp only [resolve_phase] at h
  (repeat' split at h) <;> first
    | (cases h; rfl)
    | simp_all

/-- Failures of the candidate scan happen before any mutation. -/
theorem scan_links_error_lab (lab : Lab) (si di : Option Nat) :
    ∀ links : List Link, ∀ o : Outcome,
      scan_links lab si di links = .error o → o.lab = lab := by
  intro links
  induction links with
  | nil =>
    intro o h
    unfold scan_links at h
    (repeat' split at h) <;> first
      | (cases h; rfl)
      | simp_all
  | cons ln rest ih =>
    intro o h
    unfold scan_links at h
    (repeat' split at h) <;> first
      | (cases h; rfl)
      | (exact ih o h)
      | simp_all

/-- Failures of link discovery happen before any mutation. -/
theorem discover_phase_error_lab {lab : Lab} {r : Resolved} {o : Outcome}
    (h : discover_phase lab r = .error o) : o.lab = lab := by
  simp only [discover_phase] at h
  (repeat' split at h) <;> first
    | (exact scan_links_error_lab lab r.si r.di _ o h)
    | simp_all

/-- In check mode the dispatch phase never mutates the lab. -/
theorem act_phase_check_lab (p : Params) (lab : Lab) (r : Resolved) (link : Option Link) :
    (act_phase p true lab r link).lab = lab := by
  unfold act_phase
  by_cases h1 : p.state = "present"
  · rw [if_pos h1]
    cases link <;> rfl
  · rw [if_neg h1]
    by_cases h2 : p.state = "updated"
    · rw [if_pos h2]
      cases link with
      | some ln =>
        dsimp only
        by_cases hg : (match r.ui with
            | some i => (interface_link lab i).isSome
            | none => false) = true
        · rw [if_pos hg]
          rfl
        · rw [if_neg hg]
          rfl
      | none => rfl
    · rw [if_neg h2]
      by_cases h3 : p.state = "absent"
      · rw [if_pos h3]
        cases link <;> rfl
      · rw [if_neg h3]
        rfl

/-- A check-mode invocation leaves the remote lab exactly as it found
it, whatever the input and however it terminates. -/
theorem run_check_mode_keeps_lab (p : Params) (lab : Lab) :
    (run_module_on_lab p true lab).lab = lab := by
  unfold run_module_on_lab
  cases hres : resolve_phase p lab with
  | error o => exact resolve_phase_error_lab hres
  | ok r =>
    dsimp only
    cases hdisc : discover_phase lab r with
    | error o => exact discover_phase_error_lab hdisc
    | ok link => exact act_phase_check_lab p lab r link

/-- A successful run of the present-branch mutation reports
changed=true. -/
theorem present_mutate_ok {lab : Lab} {r : Resolved} {c : Bool} {lab' : Lab}
    (h : present_mutate lab r = .ok c lab') : c = true := by
  unfold present_mutate at h
  repeat' split at h <;> try simp_all

/-- A successful run of the updated-branch mutation reports
changed=true. -/
theorem updated_mutate_ok {lab : Lab} {r : Resolved} {ln : Link} {c : Bool} {lab' : Lab}
    (h : updated_mutate lab r ln = .ok c lab') : c = true := by
  unfold updated_mutate at h
  repeat' split at h <;> try simp_all

/-- If the real dispatch exits normally, the check-mode dispatch exits
with the same changed value and the untouched lab. -/
theorem act_phase_check_of_real {p : Params} {lab : Lab} {r : Resolved} {link : Option Link}
    {c : Bool} {lab' : Lab} (h : act_phase p false lab r link = .ok c lab') :
    act_phase p true lab r link = .ok c lab := by
  unfold act_phase at h ⊢
  by_cases h1 : p.state = "present"
  · rw [if_pos h1] at h ⊢
    cases link with
    | none =>
      dsimp only at h ⊢
      rw [if_neg (by decide)] at h
      rw [if_pos rfl, present_mutate_ok h]
    | some ln =>
      dsimp only at h ⊢
      cases h
      rfl
  · rw [if_neg h1] at h ⊢
    by_cases h2 : p.state = "updated"
    · rw [if_pos h2] at h ⊢
      cases link with
      | some ln =>
        dsimp only at h ⊢
        by_cases hg : (match r.ui with
            | some i => (interface_link lab i).isSome
            | none => false) = true
        · rw [if_pos hg] at h
          simp at h
        · rw [if_neg hg] at h ⊢
          rw [if_neg (by decide)] at h
          rw [if_pos rfl, updated_mutate_ok h]
      | none =>
        dsimp only at h
        simp at h
    · rw [if_neg h2] at h ⊢
      by_cases h3 : p.state = "absent"
      · rw [if_pos h3] at h ⊢
        cases link with
        | some ln =>
          dsimp only at h ⊢
          rw [if_neg (by decide)] at h
          cases h
          rw [if_pos rfl]
        | none =>
          dsimp only at h ⊢
          cases h
          rfl
      · rw [if_neg h3] at h ⊢
        cases h
        rfl

/-- C4 (amended): check mode never mutates the remote lab - for every
input, remote state and termination kind - and on every input where the
real run exits normally, check mode exits with the same changed value.
(The equivalence does not extend to inputs where the real run crashes:
see the counterexample, where check mode reports changed=true while the
real run aborts after removing a link.) -/
theorem c4_check_mode_sound :
    (∀ p lab, (run_module_on_lab p true lab).lab = lab)
    ∧ (∀ p lab c lab', run_module_on_lab p false lab = .ok c lab' →
        run_module_on_lab p true lab = .ok c lab) := by
  refine ⟨run_check_mode_keeps_lab, ?_⟩
  intro p lab c lab' h
  cases hres : resolve_phase p lab with
  | error o =>
    have hfalse : run_module_on_lab p false lab = o := by
      simp only [run_module_on_lab, hres]
    have htrue : run_module_on_lab p true lab = o := by
      simp only [run_module_on_lab, hres]
    have hlab : o.lab = lab := resolve_phase_error_lab hres
    rw [hfalse] at h
    subst h
    simp only [Outcome.lab] at hlab
    rw [htrue, hlab]
  | ok r =>
    cases hdisc : discover_phase lab r with
    | error o =>
      have hfalse : run_module_on_lab p false lab = o := by
        simp only [run_module_on_lab, hres, hdisc]
      have htrue : run_module_on_lab p true lab = o := by
        simp only [run_module_on_lab, hres, hdisc]
      have hlab : o.lab = lab := discover_phase_error_lab hdisc
      rw [hfalse] at h
      subst h
      simp only [Outcome.lab] at hlab
      rw [htrue, hlab]
    | ok link =>
      have hfalse : run_module_on_lab p false lab = act_phase p false lab r link := by
        simp only [run_module_on_lab, hres, hdisc]
      have htrue : run_module_on_lab p true lab = act_phase p true lab r link := by
        simp only [run_module_on_lab, hres, hdisc]
      rw [hfalse] at h
      rw [htrue]
      exact act_phase_check_of_real h

/-- Witness for the amended C4: a real absent-run that exits changed
gives the same changed value in check mode, on the untouched lab. -/
theorem c4_check_mode_sound_witness :
    run_module_on_lab { baseParams with state := "absent" } true labLinked
      = .ok true labLinked :=
  c4_check_mode_sound.2 { baseParams with state := "absent" } labLinked true
    (remove_link labLinked ⟨0, 0, 1⟩) (by decide)

/-- Witness for C9: both branches at concrete labs. -/
theorem c9_absent_reconciliation_witness :
    run_module_on_lab { baseParams with state := "absent" } false labLinked
      = .ok true (remove_link labLinked ⟨0, 0, 1⟩)
    ∧ run_module_on_lab { baseParams with state := "absent" } false labUnlinked
      = .ok false labUnlinked :=
  ⟨(c9_absent_reconciliation { baseParams with state := "absent" } labLinked
      (by decide) (by decide) (by decide) rfl rfl rfl rfl rfl rfl rfl rfl).1
      ⟨0, 0, 1⟩ [] (by decide),
   (c9_absent_reconciliation { baseParams with state := "absent" } labUnlinked
      (by decide) (by decide) (by decide) rfl rfl rfl rfl rfl rfl rfl rfl).2 (by decide)⟩

/-- Two disjoint links cannot both contain an interface. -/
theorem links_disjoint_not_shared {l1 l2 : Link} (h : links_disjoint l1 l2) {i : Nat}
    (h1 : link_has l1 i = true) (h2 : link_has l2 i = true) : False := by
  have h2' : l2.a = i ∨ l2.b = i := by
    simpa [link_has] using h2
  rcases h2' with h2' | h2' <;> rw [← h2'] at h1
  · rw [h.1] at h1
    exact Bool.false_ne_true h1
  · rw [h.2] at h1
    exact Bool.false_ne_true h1

/-- Soundness of the candidate scan: a selected link is a candidate with
a requested-side match and no conflicting mismatch. -/
theorem scan_links_some_sound (lab : Lab) (si di : Option Nat) :
    ∀ links : List Link, ∀ ln : Link,
      scan_links lab si di links = .ok (some ln) →
      ln ∈ links ∧ requested_match si di ln ∧ no_mismatch si di ln := by
  intro links
  induction links with
  | nil =>
    intro ln h
    unfold scan_links at h
    (repeat' split at h) <;> simp_all
  | cons hd rest ih =>
    intro ln h
    unfold scan_links at h
    cases si with
    | none =>
      cases di with
      | none =>
        dsimp only at h
        rw [if_neg (by simp), if_neg (by simp)] at h
        obtain ⟨hmem, hrm, hnm⟩ := ih ln h
        exact ⟨List.mem_cons_of_mem _ hmem, hrm, hnm⟩
      | some j =>
        dsimp only at h
        rw [if_neg (by simp)] at h
        by_cases hg2 : link_has hd j = true
        · rw [if_pos hg2, if_neg (by simp)] at h
          have hln : hd = ln := by simpa using h
          subst hln
          refine ⟨by simp, Or.inr ⟨j, rfl, hg2⟩, ?_, ?_⟩
          · intro i hi
            exact absurd hi (by simp)
          · intro i hi
            cases hi
            exact hg2
        · rw [if_neg hg2] at h
          obtain ⟨hmem, hrm, hnm⟩ := ih ln h
          exact ⟨List.mem_cons_of_mem _ hmem, hrm, hnm⟩
    | some i =>
      cases di with
      | none =>
        dsimp only at h
        by_cases hg1 : link_has hd i = true
        · rw [if_pos hg1, if_neg (by simp)] at h
          have hln : hd = ln := by simpa using h
          subst hln
          refine ⟨by simp, Or.inl ⟨i, rfl, hg1⟩, ?_, ?_⟩
          · intro k hk
            cases hk
            exact hg1
          · intro k hk
            exact absurd hk (by simp)
        · rw [if_neg hg1, if_neg (by simp)] at h
          obtain ⟨hmem, hrm, hnm⟩ := ih ln h
          exact ⟨List.mem_cons_of_mem _ hmem, hrm, hnm⟩
      | some j =>
        dsimp only at h
        by_cases hg1 : link_has hd i = true
        · rw [if_pos hg1] at h
          by_cases hg1m : (!link_has hd j) = true
          · rw [if_pos hg1m] at h
            exact absurd h (by simp)
          · rw [if_neg hg1m] at h
            have hdj : link_has hd j = true := by simpa using hg1m
            have hln : hd = ln := by simpa using h
            subst hln
            refine ⟨by simp, Or.inl ⟨i, rfl, hg1⟩, ?_, ?_⟩
            · intro k hk
              cases hk
              exact hg1
            · intro k hk
              cases hk
              exact hdj
        · rw [if_neg hg1] at h
          by_cases hg2 : link_has hd j = true
          · rw [if_pos hg2] at h
            have hg2m : (!link_has hd i) = true := by simpa using hg1
            rw [if_pos hg2m] at h
            exact absurd h (by simp)
          · rw [if_neg hg2] at h
            obtain ⟨hmem, hrm, hnm⟩ := ih ln h
            exact ⟨List.mem_cons_of_mem _ hmem, hrm, hnm⟩

/-- Completeness of the candidate scan under the data-model invariant:
a candidate with a requested-side match and no conflicting mismatch is
the one selected. -/
theorem scan_links_complete (lab : Lab) (si di : Option Nat) :
    ∀ links : List Link, DisjointLinks links →
      ∀ ln ∈ links, requested_match si di ln → no_mismatch si di ln →
      scan_links lab si di links = .ok (some ln) := by
  intro links
  induction links with
  | nil =>
    intro _ ln hln
    exact absurd hln (by simp)
  | cons hd rest ih =>
    intro hdisj ln hln hrm hnm
    have hrel := (List.pairwise_cons.mp hdisj).1
    have hrest := (List.pairwise_cons.mp hdisj).2
    unfold scan_links
    rcases List.mem_cons.mp hln with hEq | hMem
    · subst hEq
      cases si with
      | none =>
        dsimp only
        rcases hrm with ⟨i, hi, _⟩ | ⟨j, hj, hhasj⟩
        · exact absurd hi (by simp)
        · subst hj
          dsimp only
          rw [if_neg (by simp)]
          rw [if_pos hhasj]
          try rfl
      | some i =>
        dsimp only
        rw [if_pos (hnm.1 i rfl)]
        cases di with
        | none => rw [if_neg (by simp)]
        | some j =>
          dsimp only
          rw [if_neg (by simp [hnm.2 j rfl])]
    · cases si with
      | none =>
        cases di with
        | none =>
          dsimp only
          rw [if_neg (by simp), if_neg (by simp)]
          exact ih hrest ln hMem hrm hnm
        | some j =>
          dsimp only
          have hdj : link_has ln j = true := hnm.2 j rfl
          have hg2 : ¬(link_has hd j = true) := fun hhd =>
            links_disjoint_not_shared (hrel ln hMem) hhd hdj
          rw [if_neg (by simp), if_neg hg2]
          exact ih hrest ln hMem hrm hnm
      | some i =>
        have hsi : link_has ln i = true := hnm.1 i rfl
        have hg1 : ¬(link_has hd i = true) := fun hhd =>
          links_disjoint_not_shared (hrel ln hMem) hhd hsi
        cases di with
        | none =>
          dsimp only
          rw [if_neg hg1, if_neg (by simp)]
          exact ih hrest ln hMem hrm hnm
        | some j =>
          dsimp only
          have hdj : link_has ln j = true := hnm.2 j rfl
          have hg2 : ¬(link_has hd j = true) := fun hhd =>
            links_disjoint_not_shared (hrel ln hMem) hhd hdj
          rw [if_neg hg1, if_neg hg2]
          exact ih hrest ln hMem hrm hnm

/-- C3: link discovery under the data-model invariant (distinct candidate
links never share an interface). With no requested interface the first
candidate (if any) is selected; with a requested interface, a candidate
is selected exactly when it contains a requested interface on one side
and no requested side mismatches it. -/
theorem c3_link_discovery (lab : Lab) (r : Resolved)
    (hdisj : DisjointLinks (get_links_to lab r.s r.d)) :
    ((r.si = none ∧ r.di = none) →
       discover_phase lab r = .ok (get_links_to lab r.s r.d).head?)
    ∧ ((r.si.isSome = true ∨ r.di.isSome = true) →
       ∀ ln ∈ get_links_to lab r.s r.d,
         (discover_phase lab r = .ok (some ln)
           ↔ requested_match r.si r.di ln ∧ no_mismatch r.si r.di ln)) := by
  constructor
  · rintro ⟨h1, h2⟩
    exact discover_phase_no_request lab r h1 h2
  · intro hsome ln hmem
    have hnonempty : (get_links_to lab r.s r.d).isEmpty = false := by
      cases hls : get_links_to lab r.s r.d with
      | nil =>
        rw [hls] at hmem
        exact absurd hmem (by simp)
      | cons a t => rfl
    have hnotboth : (r.si.isNone && r.di.isNone) = false := by
      rcases hsome with h | h
      · cases hsi : r.si with
        | none => rw [hsi] at h; simp at h
        | some i => rfl
      · cases hdi : r.di with
        | none => rw [hdi] at h; simp at h
        | some i => simp
    have hscan_eq : discover_phase lab r
        = scan_links lab r.si r.di (get_links_to lab r.s r.d) := by
      unfold discover_phase
      rw [if_neg (by simp [hnonempty]), if_neg (by simp [hnotboth])]
    rw [hscan_eq]
    constructor
    · intro h
      exact (scan_links_some_sound lab r.si r.di _ ln h).2
    · rintro ⟨hrm, hnm⟩
      exact scan_links_complete lab r.si r.di _ hdisj ln hmem hrm hnm

/-- Witness for C3 on a lab with two disjoint links between R1 and R2:
requesting interface 2 selects the second candidate. -/
theorem c3_link_discovery_witness :
    discover_phase labTwo ⟨"R1", "R2", none, some 2, none, none⟩ = .ok (some ⟨1, 2, 3⟩) :=
  ((c3_link_discovery labTwo ⟨"R1", "R2", none, some 2, none, none⟩ (by decide)).2
      (Or.inl rfl) ⟨1, 2, 3⟩ (by decide)).mpr
    ⟨Or.inl ⟨2, rfl, by decide⟩,
     fun i h => by cases h; decide,
     fun i h => by cases h⟩

/-- A hit in the prefix survives appending. -/
theorem find?_append_some {α : Type} {q : α → Bool} {l1 : List α} {x : α}
    (h : l1.find? q = some x) (l2 : List α) : (l1 ++ l2).find? q = some x := by
  rw [List.find?_append, h]
  rfl

/-- With pairwise-distinct ids, lookup by id finds the member itself. -/
theorem find_by_id_of_nodup {l : List Interface}
    (hpw : l.Pairwise (fun a b => a.id ≠ b.id)) {x : Interface} (hx : x ∈ l) :
    l.find? (fun y => y.id == x.id) = some x := by
  induction l with
  | nil => cases hx
  | cons a t ih =>
    rcases List.mem_cons.mp hx with hEq | hmem
    · subst hEq
      exact List.find?_cons_of_pos _ (by simp)
    · have hne : a.id ≠ x.id := (List.pairwise_cons.mp hpw).1 x hmem
      rw [List.find?_cons_of_neg _ (by simp [hne])]
      exact ih (List.pairwise_cons.mp hpw).2 hmem

/-- Existence of an interface with a given id makes the id lookup hit. -/
theorem find_by_id_isSome {l : List Interface} {e : Nat}
    (h : ∃ x ∈ l, x.id = e) : (l.find? (fun y => y.id == e)).isSome = true := by
  obtain ⟨x, hx, hid⟩ := h
  rw [List.find?_isSome]
  exact ⟨x, hx, by simp [hid]⟩

/-- Ids at or above the fresh-id counter are attached to no link. -/
theorem interface_link_fresh {lab : Lab} (hwf : LabWf lab) {e : Nat}
    (he : lab.nextIfaceId ≤ e) : interface_link lab e = none := by
  unfold interface_link
  rw [List.find?_eq_none]
  intro ln hln
  obtain ⟨⟨xa, hxa, hida⟩, ⟨xb, hxb, hidb⟩⟩ := hwf.2.2 ln hln
  have ha : ln.a < lab.nextIfaceId := by
    rw [← hida]
    exact hwf.1 xa hxa
  have hb : ln.b < lab.nextIfaceId := by
    rw [← hidb]
    exact hwf.1 xb hxb
  simp [link_has]
  omega

/-- The attachment map only reads the links. -/
theorem interface_link_congr {lab lab' : Lab} (h : lab'.links = lab.links) (i : Nat) :
    interface_link lab' i = interface_link lab i := by
  unfold interface_link
  rw [h]

/-- Node lookup by interface id is stable under appending interfaces
when the id already resolves. -/
theorem node_of_interface_mono {lab lab' : Lab} {e : Nat} (suf : List Interface)
    (hsuf : lab'.interfaces = lab.interfaces ++ suf)
    (hhit : (lab.interfaces.find? (fun x => x.id == e)).isSome = true) :
    node_of_interface lab' e = node_of_interface lab e := by
  obtain ⟨x, hx⟩ := Option.isSome_iff_exists.mp hhit
  unfold node_of_interface
  rw [hsuf, find?_append_some hx, hx]

/-- Well-formedness survives create_interface. -/
theorem create_interface_wf {lab : Lab} (hwf : LabWf lab) (nd : String) :
    LabWf (create_interface lab nd).1 := by
  obtain ⟨h1, h2, h3⟩ := hwf
  unfold create_interface
  refine ⟨?_, ?_, ?_⟩
  · intro i hi
    rcases List.mem_append.mp hi with hi | hi
    · exact Nat.lt_succ_of_lt (h1 i hi)
    · simp at hi
      rw [hi]
      exact Nat.lt_succ_self _
  · rw [List.pairwise_append]
    refine ⟨h2, by simp, ?_⟩
    intro a ha b hb
    simp at hb
    rw [hb]
    exact Nat.ne_of_lt (h1 a ha)
  · intro ln hln
    obtain ⟨⟨xa, hxa, hida⟩, ⟨xb, hxb, hidb⟩⟩ := h3 ln hln
    exact ⟨⟨xa, List.mem_append_left _ hxa, hida⟩, ⟨xb, List.mem_append_left _ hxb, hidb⟩⟩

/-- What interface allocation guarantees: an interface of the requested
node, unattached, with the lab only growing by appended interfaces. -/
theorem allocate_interface_spec (lab : Lab) (nd : String) (hwf : LabWf lab) :
    (∃ x ∈ (allocate_interface lab nd).1.interfaces,
        x.id = (allocate_interface lab nd).2 ∧ x.node = nd)
    ∧ interface_link lab (allocate_interface lab nd).2 = none
    ∧ (∃ suf, (allocate_interface lab nd).1.interfaces = lab.interfaces ++ suf)
    ∧ (allocate_interface lab nd).1.links = lab.links
    ∧ (allocate_interface lab nd).1.nodes = lab.nodes
    ∧ (allocate_interface lab nd).1.nextLinkId = lab.nextLinkId
    ∧ LabWf (allocate_interface lab nd).1 := by
  unfold allocate_interface
  cases hna : next_available_interface lab nd with
  | some x =>
    dsimp only
    have hmem : x ∈ lab.interfaces :=
      List.mem_of_find?_eq_some (by simpa [next_available_interface] using hna)
    have hq := List.find?_some (by simpa [next_available_interface] using hna :
      lab.interfaces.find? (fun i => i.node == nd && (interface_link lab i.id).isNone) = some x)
    simp at hq
    refine ⟨⟨x, hmem, rfl, hq.1⟩, ?_, ⟨[], by simp⟩, rfl, rfl, rfl, hwf⟩
    exact hq.2
  | none =>
    dsimp only
    refine ⟨?_, ?_, ⟨_, rfl⟩, rfl, rfl, rfl, create_interface_wf hwf nd⟩
    · exact ⟨⟨lab.nextIfaceId, nd, "eth" ++ toString lab.nextIfaceId, Int.ofNat lab.nextIfaceId⟩,
        List.mem_append_right _ (by simp), rfl, rfl⟩
    · exact interface_link_fresh hwf (Nat.le_refl _)

/-- A resolved requested interface lives on the requested node. -/
theorem resolve_interface_some {lab : Lab} {nd : String} {bl : Option String}
    {bs : Option Int} {i : Nat}
    (h : resolve_interface lab nd bl bs = .ok (some i)) :
    ∃ x ∈ lab.interfaces, x.id = i ∧ x.node = nd := by
  unfold resolve_interface at h
  cases bl with
  | some l =>
    dsimp only at h
    cases hfind : get_interface_by_label lab nd l with
    | some x =>
      rw [hfind] at h
      have hxi : x.id = i := by simpa using h
      have hmem : x ∈ lab.interfaces :=
        List.mem_of_find?_eq_some (by simpa [get_interface_by_label] using hfind)
      have hq := List.find?_some (by simpa [get_interface_by_label] using hfind :
        lab.interfaces.find? (fun y => y.node == nd && y.label == l) = some x)
      simp at hq
      exact ⟨x, hmem, hxi, hq.1⟩
    | none =>
      rw [hfind] at h
      exact absurd h (by simp)
  | none =>
    cases bs with
    | some sl =>
      dsimp only at h
      cases hfind : get_interface_by_slot lab nd sl with
      | some x =>
        rw [hfind] at h
        have hxi : x.id = i := by simpa using h
        have hmem : x ∈ lab.interfaces :=
          List.mem_of_find?_eq_some (by simpa [get_interface_by_slot] using hfind)
        have hq := List.find?_some (by simpa [get_interface_by_slot] using hfind :
          lab.interfaces.find? (fun y => y.node == nd && y.slot == sl) = some x)
        simp at hq
        exact ⟨x, hmem, hxi, hq.1⟩
      | none =>
        rw [hfind] at h
        exact absurd h (by simp)
    | none =>
      dsimp only at h
      exact absurd h (by simp)

/-- Interface resolution is stable under appending interfaces. -/
theorem resolve_interface_mono {lab lab' : Lab} {nd : String} {bl : Option String}
    {bs : Option Int} {res : Option Nat} (suf : List Interface)
    (hsuf : lab'.interfaces = lab.interfaces ++ suf)
    (h : resolve_interface lab nd bl bs = .ok res) :
    resolve_interface lab' nd bl bs = .ok res := by
  unfold resolve_interface at h ⊢
  cases bl with
  | some l =>
    dsimp only at h ⊢
    cases hfind : get_interface_by_label lab nd l with
    | some x =>
      rw [hfind] at h
      have hfind' : get_interface_by_label lab' nd l = some x := by
        unfold get_interface_by_label at hfind ⊢
        rw [hsuf]
        exact find?_append_some hfind _
      rw [hfind']
      exact h
    | none =>
      rw [hfind] at h
      exact absurd h (by simp)
  | none =>
    cases bs with
    | some sl =>
      dsimp only at h ⊢
      cases hfind : get_interface_by_slot lab nd sl with
      | some x =>
        rw [hfind] at h
        have hfind' : get_interface_by_slot lab' nd sl = some x := by
          unfold get_interface_by_slot at hfind ⊢
          rw [hsuf]
          exact find?_append_some hfind _
        rw [hfind']
        exact h
      | none =>
        rw [hfind] at h
        exact absurd h (by simp)
    | none => exact h

/-- Candidate enumeration after growing a lab: old links keep their
verdicts, appended links are filtered with the grown lab's node map. -/
theorem get_links_to_extend {lab lab' : Lab} (s d : String) (suf : List Interface)
    (extra : List Link) (hwf : LabWf lab)
    (hsuf : lab'.interfaces = lab.interfaces ++ suf)
    (hlk : lab'.links = lab.links ++ extra) :
    get_links_to lab' s d = get_links_to lab s d ++ extra.filter (fun ln =>
      (node_of_interface lab' ln.a == some s && node_of_interface lab' ln.b == some d) ||
      (node_of_interface lab' ln.a == some d && node_of_interface lab' ln.b == some s)) := by
  unfold get_links_to
  rw [hlk, List.filter_append]
  congr 1
  apply List.filter_congr
  intro ln hln
  obtain ⟨ha, hb⟩ := hwf.2.2 ln hln
  rw [node_of_interface_mono suf hsuf (find_by_id_isSome ha),
    node_of_interface_mono suf hsuf (find_by_id_isSome hb)]

/-- No link of a stale empty candidate set resurfaces: an empty result
stays empty on the old links after growth. -/
theorem discover_phase_empty (lab : Lab) (r : Resolved)
    (h : get_links_to lab r.s r.d = []) : discover_phase lab r = .ok none := by
  unfold discover_phase
  rw [h]
  rfl

theorem add_link_interfaces (lab : Lab) (i1 i2 : Nat) :
    (add_link lab i1 i2).interfaces = lab.interfaces := rfl

theorem add_link_nodes (lab : Lab) (i1 i2 : Nat) :
    (add_link lab i1 i2).nodes = lab.nodes := rfl

theorem add_link_links (lab : Lab) (i1 i2 : Nat) :
    (add_link lab i1 i2).links = lab.links ++ [⟨lab.nextLinkId, i1, i2⟩] := rfl

/-- Full description of a successful present-branch mutation: the lab
grows by at most two appended interfaces and exactly one appended link
whose endpoints lie on the source and destination nodes and agree with
any explicitly requested interfaces. -/
theorem present_mutate_spec (lab : Lab) (r : Resolved) (hwf : LabWf lab)
    (hsifree : ∀ i, r.si = some i → interface_link lab i = none)
    (hdifree : ∀ i, r.di = some i → interface_link lab i = none)
    (hsinode : ∀ i, r.si = some i → ∃ x ∈ lab.interfaces, x.id = i ∧ x.node = r.s)
    (hdinode : ∀ i, r.di = some i → ∃ x ∈ lab.interfaces, x.id = i ∧ x.node = r.d) :
    ∃ lab2 si di,
      present_mutate lab r = .ok true (add_link lab2 si di)
      ∧ (∃ suf, lab2.interfaces = lab.interfaces ++ suf)
      ∧ lab2.links = lab.links
      ∧ lab2.nodes = lab.nodes
      ∧ lab2.nextLinkId = lab.nextLinkId
      ∧ LabWf lab2
      ∧ (∃ x ∈ lab2.interfaces, x.id = si ∧ x.node = r.s)
      ∧ (∃ x ∈ lab2.interfaces, x.id = di ∧ x.node = r.d)
      ∧ (∀ i, r.si = some i → si = i)
      ∧ (∀ i, r.di = some i → di = i) := by
  unfold present_mutate
  cases hsi : r.si with
  | some i =>
    dsimp only
    cases hdi : r.di with
    | some j =>
      dsimp only
      have hfi : interface_link lab i = none := hsifree i hsi
      have hfj : interface_link lab j = none := hdifree j hdi
      refine ⟨lab, i, j, ?_, ⟨[], by simp⟩, rfl, rfl, rfl, hwf,
        hsinode i hsi, hdinode j hdi, ?_, ?_⟩
      · unfold create_link
        rw [if_neg (by simp [hfi, hfj])]
      · intro k hk
        cases hk
        rfl
      · intro k hk
        cases hk
        rfl
    | none =>
      dsimp only
      obtain ⟨hDnode, hDfree, ⟨s2, hDsuf⟩, hDlinks, hDnodes, hDnext, hDwf⟩ :=
        allocate_interface_spec lab r.d hwf
      cases hA : allocate_interface lab r.d with
      | mk lab2 dj =>
        rw [hA] at hDnode hDfree hDsuf hDlinks hDnodes hDnext hDwf
        dsimp only at hDnode hDfree hDsuf hDlinks hDnodes hDnext hDwf
        dsimp only
        have hfi : interface_link lab2 i = none := by
          rw [interface_link_congr hDlinks]
          exact hsifree i hsi
        have hfj : interface_link lab2 dj = none := by
          rw [interface_link_congr hDlinks]
          exact hDfree
        obtain ⟨x, hx, hxid, hxnode⟩ := hsinode i hsi
        refine ⟨lab2, i, dj, ?_, ⟨s2, hDsuf⟩, hDlinks, hDnodes, hDnext, hDwf,
          ⟨x, ?_, hxid, hxnode⟩, hDnode, ?_, ?_⟩
        · unfold create_link
          rw [if_neg (by simp [hfi, hfj])]
        · rw [hDsuf]
          exact List.mem_append_left _ hx
        · intro k hk
          cases hk
          rfl
        · intro k hk
          exact absurd hk (by simp)
  | none =>
    dsimp only
    obtain ⟨hSnode, hSfree, ⟨s1, hSsuf⟩, hSlinks, hSnodes, hSnext, hSwf⟩ :=
      allocate_interface_spec lab r.s hwf
    cases hS : allocate_interface lab r.s with
    | mk lab1 si1 =>
      rw [hS] at hSnode hSfree hSsuf hSlinks hSnodes hSnext hSwf
      dsimp only at hSnode hSfree hSsuf hSlinks hSnodes hSnext hSwf
      dsimp only
      cases hdi : r.di with
      | some j =>
        dsimp only
        have hfi : interface_link lab1 si1 = none := by
          rw [interface_link_congr hSlinks]
          exact hSfree
        have hfj : interface_link lab1 j = none := by
          rw [interface_link_congr hSlinks]
          exact hdifree j hdi
        obtain ⟨x, hx, hxid, hxnode⟩ := hdinode j hdi
        refine ⟨lab1, si1, j, ?_, ⟨s1, hSsuf⟩, hSlinks, hSnodes, hSnext, hSwf,
          hSnode, ⟨x, ?_, hxid, hxnode⟩, ?_, ?_⟩
        · unfold create_link
          rw [if_neg (by simp [hfi, hfj])]
        · rw [hSsuf]
          exact List.mem_append_left _ hx
        · intro k hk
          exact absurd hk (by simp)
        · intro k hk
          cases hk
          rfl
      | none =>
        dsimp only
        obtain ⟨hDnode, hDfree, ⟨s2, hDsuf⟩, hDlinks, hDnodes, hDnext, hDwf⟩ :=
          allocate_interface_spec lab1 r.d hSwf
        cases hD : allocate_interface lab1 r.d with
        | mk lab2 dj =>
          rw [hD] at hDnode hDfree hDsuf hDlinks hDnodes hDnext hDwf
          dsimp only at hDnode hDfree hDsuf hDlinks hDnodes hDnext hDwf
          dsimp only
          have hfi : interface_link lab2 si1 = none := by
            rw [interface_link_congr hDlinks, interface_link_congr hSlinks]
            exact hSfree
          have hfj : interface_link lab2 dj = none := by
            rw [interface_link_congr hDlinks]
            exact hDfree
          obtain ⟨x, hx, hxid, hxnode⟩ := hSnode
          refine ⟨lab2, si1, dj, ?_,
            ⟨s1 ++ s2, by rw [hDsuf, hSsuf, List.append_assoc]⟩,
            hDlinks.trans hSlinks, hDnodes.trans hSnodes, hDnext.trans hSnext, hDwf,
            ⟨x, ?_, hxid, hxnode⟩, hDnode, ?_, ?_⟩
          · unfold create_link
            rw [if_neg (by simp [hfi, hfj])]
          · rw [hDsuf]
            exact List.mem_append_left _ hx
          · intro k hk
            exact absurd hk (by simp)
          · intro k hk
            exact absurd hk (by simp)

/-- A present-state run against a lab whose only candidate link matches
the requested interfaces verifies the link and exits changed=false with
no mutation. -/
theorem run_present_on_linked (p : Params) (lab' : Lab) (os od : Option Nat) (lnk : Link)
    (hs : lab'.nodes.contains p.source_node = true)
    (hd : lab'.nodes.contains p.destination_node = true)
    (hne : p.source_node ≠ p.destination_node)
    (hstate : p.state = "present")
    (hupd : p.update_node = none)
    (hui : p.update_interface = none) (hus : p.update_interface_slot = none)
    (hrs : resolve_interface lab' p.source_node p.source_interface p.source_interface_slot
      = .ok os)
    (hrd : resolve_interface lab' p.destination_node p.destination_interface
      p.destination_interface_slot = .ok od)
    (hlk : get_links_to lab' p.source_node p.destination_node = [lnk])
    (hsiin : ∀ i, os = some i → link_has lnk i = true)
    (hdiin : ∀ i, od = some i → link_has lnk i = true) :
    run_module_on_lab p false lab' = .ok false lab' := by
  have hst : p.state ≠ "updated" := by
    rw [hstate]
    decide
  have hres : resolve_phase p lab'
      = .ok ⟨p.source_node, p.destination_node, none, os, od, none⟩ :=
    resolve_phase_eval p lab' os od hs hd hne hupd hui hus hst hrs hrd
  have hdisc : discover_phase lab' ⟨p.source_node, p.destination_node, none, os, od, none⟩
      = .ok (some lnk) := by
    unfold discover_phase
    dsimp only
    rw [hlk]
    cases hos : os with
    | none =>
      cases hod : od with
      | none => rfl
      | some j =>
        have hj : link_has lnk j = true := hdiin j hod
        rw [if_neg (by simp), if_neg (by simp)]
        unfold scan_links
        dsimp only
        rw [if_neg (by simp), if_pos hj, if_neg (by simp)]
    | some i =>
      have hi : link_has lnk i = true := hsiin i hos
      rw [if_neg (by simp), if_neg (by simp)]
      unfold scan_links
      dsimp only
      rw [if_pos hi]
      cases hod : od with
      | none => rw [if_neg (by simp)]
      | some j =>
        have hj : link_has lnk j = true := hdiin j hod
        rw [if_neg (by simp [hj])]
  simp only [run_module_on_lab, hres, hdisc]
  unfold act_phase
  rw [hstate, if_pos rfl]

/-- C5: idempotence of state=present. Starting from a well-formed lab
with resolved distinct nodes, no candidate link between them, and any
explicitly requested interfaces resolving and unattached, the first
invocation creates a link and reports changed=true, and repeating the
same invocation on the resulting lab reports changed=false with no
further mutation. -/
theorem c5_present_idempotent (p : Params) (lab : Lab) (os od : Option Nat)
    (hwf : LabWf lab)
    (hs : lab.nodes.contains p.source_node = true)
    (hd : lab.nodes.contains p.destination_node = true)
    (hne : p.source_node ≠ p.destination_node)
    (hstate : p.state = "present")
    (hupd : p.update_node = none)
    (hui : p.update_interface = none) (hus : p.update_interface_slot = none)
    (hrs : resolve_interface lab p.source_node p.source_interface p.source_interface_slot
      = .ok os)
    (hfs : ∀ i, os = some i → interface_link lab i = none)
    (hrd : resolve_interface lab p.destination_node p.destination_interface
      p.destination_interface_slot = .ok od)
    (hfd : ∀ i, od = some i → interface_link lab i = none)
    (hnolink : get_links_to lab p.source_node p.destination_node = []) :
    ∃ lab', run_module_on_lab p false lab = .ok true lab'
      ∧ run_module_on_lab p false lab' = .ok false lab' := by
  have hst : p.state ≠ "updated" := by
    rw [hstate]
    decide
  have hres1 : resolve_phase p lab
      = .ok ⟨p.source_node, p.destination_node, none, os, od, none⟩ :=
    resolve_phase_eval p lab os od hs hd hne hupd hui hus hst hrs hrd
  have hdisc1 : discover_phase lab ⟨p.source_node, p.destination_node, none, os, od, none⟩
      = .ok none := discover_phase_empty _ _ hnolink
  have hnode_s : ∀ i, os = some i → ∃ x ∈ lab.interfaces, x.id = i ∧ x.node = p.source_node := by
    intro i hi
    rw [hi] at hrs
    exact resolve_interface_some hrs
  have hnode_d : ∀ i, od = some i →
      ∃ x ∈ lab.interfaces, x.id = i ∧ x.node = p.destination_node := by
    intro i hi
    rw [hi] at hrd
    exact resolve_interface_some hrd
  obtain ⟨lab2, si, di, hmut, ⟨suf, hsuf⟩, hlinks2, hnodes2, hnext2, hwf2,
      ⟨xs, hxs, hxsid, hxsnode⟩, ⟨xd, hxd, hxdid, hxdnode⟩, hsieq, hdieq⟩ :=
    present_mutate_spec lab ⟨p.source_node, p.destination_node, none, os, od, none⟩ hwf
      hfs hfd hnode_s hnode_d
  refine ⟨add_link lab2 si di, ?_, ?_⟩
  · simp only [run_module_on_lab, hres1, hdisc1]
    unfold act_phase
    rw [hstate, if_pos rfl]
    dsimp only
    rw [if_neg (by decide)]
    exact hmut
  · have hsuf' : (add_link lab2 si di).interfaces = lab.interfaces ++ suf := by
      rw [add_link_interfaces]
      exact hsuf
    have hno_s : node_of_interface (add_link lab2 si di) si = some p.source_node := by
      unfold node_of_interface
      rw [add_link_interfaces, ← hxsid, find_by_id_of_nodup hwf2.2.1 hxs]
      simp [hxsnode]
    have hno_d : node_of_interface (add_link lab2 si di) di = some p.destination_node := by
      unfold node_of_interface
      rw [add_link_interfaces, ← hxdid, find_by_id_of_nodup hwf2.2.1 hxd]
      simp [hxdnode]
    have hext := get_links_to_extend p.source_node p.destination_node suf
      [⟨lab2.nextLinkId, si, di⟩] hwf hsuf' (by rw [add_link_links, hlinks2])
    rw [hnolink] at hext
    have hlk : get_links_to (add_link lab2 si di) p.source_node p.destination_node
        = [⟨lab2.nextLinkId, si, di⟩] := by
      rw [hext]
      simp [hno_s, hno_d]
    refine run_present_on_linked p _ os od ⟨lab2.nextLinkId, si, di⟩
      (by rw [add_link_nodes, hnodes2]; exact hs)
      (by rw [add_link_nodes, hnodes2]; exact hd)
      hne hstate hupd hui hus
      (resolve_interface_mono suf hsuf' hrs)
      (resolve_interface_mono suf hsuf' hrd)
      hlk ?_ ?_
    · intro i hi
      simp [link_has, hsieq i hi]
    · intro i hi
      simp [link_has, hdieq i hi]

/-- Witness for C5: the scenario of the spec, nodes R1 and R2 unlinked,
no interfaces requested. -/
theorem c5_present_idempotent_witness :
    ∃ lab', run_module_on_lab baseParams false labUnlinked = .ok true lab'
      ∧ run_module_on_lab baseParams false lab' = .ok false lab' :=
  c5_present_idempotent baseParams labUnlinked none none (by decide) (by decide)
    (by decide) (by decide) rfl rfl rfl rfl rfl (fun i hi => nomatch hi) rfl
    (fun i hi => nomatch hi) (by decide)

end CmlLinkNode
